import Mathlib

/-!
Shallow embedding of `cd_parser/xpath.py` (class `Xpath`), a facade over a
parsed XML/HTML document tree.

The facade stores a parsed tree plus an optional base URL.  Each query
method of the source builds an XPath expression string by interpolating the
caller-supplied fragments into an f-string template and delegates to the
external XPath evaluator (`lxml`); it then lightly post-processes the
result list.  We embed:

* `Node`: the parsed document tree (element nodes with an attribute list
  and a child list, plus text nodes).  Trees are assumed normalized - no
  two adjacent text siblings - as produced by a markup parse.
* `parseQuery` / `evalQuery`: a parser and evaluator for the fragment of
  the XPath 1.0 language reachable from the expression templates of the
  source, following the semantics of the external evaluator: document
  order, sequential predicate filtering with positions, string truthiness
  of literal predicates, exact string equality for `@attr='v'` tests.
* `Xpath`: the facade itself, each method translated statement-by-statement
  from the source, with Python string truthiness modelled explicitly.

Fallible operations return `Except CDError`, with one error constructor per
error kind named in the documentation: `InvalidConfiguration` (bad
content-type), `ParseError` (malformed content), `QueryError` (malformed
generated expression), `ConfigurationError` (internal links requested
without a base URL).
-/

namespace CDParser

/-- The single-quote character (codepoint 39), used by the XPath templates
of the source to delimit string literals. -/
def quoteCh : Char := Char.ofNat 39

/-- The single-quote character as a one-character string. -/
def sq : String := String.singleton quoteCh

/-- A node of the parsed document tree: an element with a tag name, an
attribute association list and a list of children, or a text node. -/
inductive Node where
  | element (tag : String) (attrs : List (String × String)) (children : List Node)
  | text (s : String)

/-- Attribute lookup on an element (`Element.get` in lxml); `none` on text
nodes and missing attributes. -/
def getAttr : Node → String → Option String
  | .element _ attrs _, a => attrs.lookup a
  | .text _, _ => none

/-- The children of a node (empty for text nodes). -/
def Node.childList : Node → List Node
  | .element _ _ cs => cs
  | .text _ => []

/-- Whether the node is an element. -/
def Node.isElem : Node → Bool
  | .element _ _ _ => true
  | .text _ => false

/-- The string contents of the text-node children of a node, in order. -/
def Node.textChildren (n : Node) : List String :=
  n.childList.filterMap fun c => match c with
    | .text s => some s
    | .element _ _ _ => none

/-- Models lxml `Element.text`: the text immediately after the start tag,
i.e. the leading text child if there is one (for normalized trees). -/
def Node.textProp : Node → Option String
  | .element _ _ (.text s :: _) => some s
  | _ => none

/-- The error kinds of the facade, as named in its documentation. -/
inductive CDError where
  | invalidConfiguration (msg : String)
  | parseError (msg : String)
  | queryError (expr : String)
  | configurationError (msg : String)
deriving DecidableEq

/-! ## The XPath query fragment

Abstract syntax of the XPath subset reachable from the source's expression
templates, and its evaluator. -/

/-- A node test: `*` or an exact tag name. -/
inductive NameTest where
  | star
  | name (s : String)
deriving DecidableEq

/-- A predicate of the XPath subset: a position number, a string literal
(truthy iff nonempty), `@a='v'`, `text()='v'`, `contains(text(), 'v')`,
or `contains(@a, 'v')`. -/
inductive Pred where
  | num (k : Nat)
  | lit (s : String)
  | attrEq (a v : String)
  | textEq (v : String)
  | containsText (v : String)
  | containsAttr (a v : String)
deriving DecidableEq

/-- A location step: a node test followed by a possibly empty list of
predicates. -/
structure XStep where
  test : NameTest
  preds : List Pred
deriving DecidableEq

/-- A whole query of the XPath subset: `//step`, `//step/@attr`,
`//step/step`, or `//step//text()`. -/
inductive Query where
  | elems (s : XStep)
  | elemsAttr (s : XStep) (a : String)
  | elemsChild (s c : XStep)
  | textsUnder (s : XStep)
deriving DecidableEq

/-- Characters allowed in a name token by the query-string parser
(letters, digits, hyphen, underscore - enough for every tag and attribute
name the source's templates are meant to receive). -/
def isNameChar (c : Char) : Bool :=
  c.isAlphanum || c = '-' || c = '_'

/-- Expect an exact character at the head of the input. -/
def expectChar (c : Char) : List Char → Option (List Char)
  | x :: rest => if x = c then some rest else none
  | [] => none

/-- Expect an exact sequence of characters at the head of the input. -/
def expectChars : List Char → List Char → Option (List Char)
  | [], cs => some cs
  | p :: ps, c :: cs => if c = p then expectChars ps cs else none
  | _ :: _, [] => none

/-- Parse a nonempty name token. -/
def parseName (cs : List Char) : Option (String × List Char) :=
  if (cs.takeWhile isNameChar).isEmpty then none
  else some (String.mk (cs.takeWhile isNameChar), cs.dropWhile isNameChar)

/-- Parse an XPath string literal `'...'` (XPath 1.0 has no escaping: the
literal body is every character up to the next quote). -/
def parseLiteral (cs : List Char) : Option (String × List Char) :=
  match cs with
  | c :: rest =>
    if c = quoteCh then
      match rest.dropWhile (fun x => x != quoteCh) with
      | q :: rest2 =>
        if q = quoteCh then
          some (String.mk (rest.takeWhile fun x => x != quoteCh), rest2)
        else none
      | [] => none
    else none
  | [] => none

/-- Parse a nonempty digit sequence as a number. -/
def parseNumber (cs : List Char) : Option (Nat × List Char) :=
  let tk := cs.takeWhile Char.isDigit
  if tk.isEmpty then none
  else
    match (String.mk tk).toNat? with
    | some k => some (k, cs.dropWhile Char.isDigit)
    | none => none

/-- Skip space characters. -/
def skipSpaces (cs : List Char) : List Char :=
  cs.dropWhile (fun c => c = ' ')

/-- Parse the body of a predicate (everything between `[` and `]`). -/
def parsePredBody (cs : List Char) : Option (Pred × List Char) :=
  match cs with
  | c :: rest =>
    if c = '@' then do
      let (a, r1) ← parseName rest
      match r1 with
      | e :: r2 =>
        if e = '=' then do
          let (v, r3) ← parseLiteral r2
          pure (Pred.attrEq a v, r3)
        else none
      | [] => none
    else if c = quoteCh then do
      let (v, r1) ← parseLiteral cs
      pure (Pred.lit v, r1)
    else if c.isDigit then do
      let (k, r1) ← parseNumber cs
      pure (Pred.num k, r1)
    else
      match expectChars "text()=".data cs with
      | some r1 => do
        let (v, r2) ← parseLiteral r1
        pure (Pred.textEq v, r2)
      | none =>
        match expectChars "contains(".data cs with
        | some r1 =>
          match expectChars "text()".data r1 with
          | some r2 => do
            let r3 ← expectChar ',' r2
            let (v, r4) ← parseLiteral (skipSpaces r3)
            let r5 ← expectChar ')' r4
            pure (Pred.containsText v, r5)
          | none => do
            let r2 ← expectChar '@' r1
            let (a, r3) ← parseName r2
            let r4 ← expectChar ',' r3
            let (v, r5) ← parseLiteral (skipSpaces r4)
            let r6 ← expectChar ')' r5
            pure (Pred.containsAttr a v, r6)
        | none => none
  | [] => none

/-- Parse a possibly empty sequence of `[...]` predicates.  The fuel is an
upper bound on the number of predicates; callers pass `length + 1`, which
always suffices since each predicate consumes at least three characters. -/
def parsePreds (fuel : Nat) (cs : List Char) : Option (List Pred × List Char) :=
  match fuel, cs with
  | 0, _ => none
  | _ + 1, [] => some ([], [])
  | f + 1, c :: rest =>
    if c = '[' then
      match parsePredBody rest with
      | some (p, r1) =>
        match expectChar ']' r1 with
        | some r2 =>
          match parsePreds f r2 with
          | some (ps, r3) => some (p :: ps, r3)
          | none => none
        | none => none
      | none => none
    else some ([], c :: rest)

/-- Parse a node test: `*` or a name. -/
def parseNameTest (cs : List Char) : Option (NameTest × List Char) :=
  match cs with
  | c :: rest =>
    if c = '*' then some (NameTest.star, rest)
    else (parseName cs).map fun nr => (NameTest.name nr.1, nr.2)
  | [] => none

/-- Parse a location step: a node test plus predicates. -/
def parseStep (cs : List Char) : Option (XStep × List Char) := do
  let (t, r1) ← parseNameTest cs
  let (ps, r2) ← parsePreds (r1.length + 1) r1
  pure (⟨t, ps⟩, r2)

/-- Parse a whole query string of the XPath subset the source can
generate: `//step`, `//step/@attr`, `//step/step`, `//step//text()`.
Returns `none` on any string outside the subset (the external evaluator
raises `XPathEvalError` on malformed expressions). -/
def parseQuery (q : String) : Option Query := do
  let r0 ← expectChars "//".data q.data
  let (s1, r2) ← parseStep r0
  match r2 with
  | [] => pure (Query.elems s1)
  | c :: r3 =>
    if c = '/' then
      match r3 with
      | [] => none
      | d :: r4 =>
        if d = '/' then do
          let r5 ← expectChars "text()".data r4
          if r5.isEmpty then pure (Query.textsUnder s1) else none
        else if d = '@' then do
          let (a, r5) ← parseName r4
          if r5.isEmpty then pure (Query.elemsAttr s1 a) else none
        else do
          let (s2, r5) ← parseStep r3
          if r5.isEmpty then pure (Query.elemsChild s1 s2) else none
    else none

/-! ## Query evaluation

Evaluation of the query AST against a tree, in document order, following
the XPath 1.0 semantics of the external evaluator. -/

/-- Does a node pass a node test?  Only elements match a name test. -/
def matchesTest : NameTest → Node → Bool
  | .star, .element _ _ _ => true
  | .name t, .element tag _ _ => t == tag
  | _, .text _ => false

/-- Does `needle` occur as a contiguous run inside `hay`? -/
def infixOfL (needle : List Char) : List Char → Bool
  | [] => needle.isEmpty
  | c :: rest => needle.isPrefixOf (c :: rest) || infixOfL needle rest

/-- Substring containment, as XPath `contains`. -/
def containsSub (hay needle : String) : Bool :=
  infixOfL needle.data hay.data

/-- Truth of one predicate at a candidate node, `pos` being the node's
1-based position among the current candidate list (XPath proximity
position on a forward axis). -/
def predHolds (p : Pred) (pos : Nat) (n : Node) : Bool :=
  match p with
  | .num k => pos == k
  | .lit s => !(s == "")
  | .attrEq a v => getAttr n a == some v
  | .textEq v => n.textChildren.any (fun s => s == v)
  | .containsText v => containsSub (n.textChildren.head?.getD "") v
  | .containsAttr a v => containsSub ((getAttr n a).getD "") v

/-- One round of XPath predicate filtering over a flagged candidate list:
positions count only the still-live candidates, and a candidate that fails
the predicate is turned off but keeps its slot. -/
def stepMask (p : Pred) : Nat → List (Node × Bool) → List (Node × Bool)
  | _, [] => []
  | pos, (n, b) :: rest =>
    if b then (n, predHolds p pos n) :: stepMask p (pos + 1) rest
    else (n, false) :: stepMask p pos rest

/-- Which members of a child list are selected by a step: node test first,
then each predicate in turn (XPath applies predicates sequentially,
recomputing positions after each). -/
def selectionMask (s : XStep) (cs : List Node) : List Bool :=
  (s.preds.foldl (fun acc p => stepMask p 1 acc) (cs.map fun n => (n, matchesTest s.test n))).map
    fun nb => nb.2

/-- All-false mask of the same length as a child list. -/
def noneMask (cs : List Node) : List Bool :=
  cs.map fun _ => false

mutual
/-- Document-order collection of the elements selected by `//step` among
the strict descendants of `n`. -/
def collectE (s : XStep) (n : Node) : List Node :=
  match n with
  | .text _ => []
  | .element _ _ cs => collectEList s (selectionMask s cs) cs
/-- Walk a child list with its selection mask: each selected child is
emitted before its own subtree's matches (document order). -/
def collectEList (s : XStep) : List Bool → List Node → List Node
  | b :: bs, c :: cs => (if b then [c] else []) ++ collectE s c ++ collectEList s bs cs
  | _, _ => []
end

/-- `//step` over the whole document: the tree root is the only child of
the (virtual) document node. -/
def evalStepAll (s : XStep) (root : Node) : List Node :=
  collectEList s (selectionMask s [root]) [root]

mutual
/-- Document-order collection for `//s/c`: children selected by `c` of
elements selected by `//s`.  `nMatchesS` says whether `n` itself was
selected by `//s` (decided at `n`'s parent). -/
def collectC (s c : XStep) (n : Node) (nMatchesS : Bool) : List Node :=
  match n with
  | .text _ => []
  | .element _ _ cs =>
    collectCList s c (selectionMask s cs) (if nMatchesS then selectionMask c cs else noneMask cs) cs
/-- Walk a child list with the `s`-selection and `c`-selection masks. -/
def collectCList (s c : XStep) : List Bool → List Bool → List Node → List Node
  | sm :: sms, cm :: cms, x :: xs =>
    (if cm then [x] else []) ++ collectC s c x sm ++ collectCList s c sms cms xs
  | _, _, _ => []
end

/-- `//s/c` over the whole document. -/
def evalChildAll (s c : XStep) (root : Node) : List Node :=
  collectCList s c (selectionMask s [root]) (noneMask [root]) [root]

mutual
/-- Document-order collection for `//s//text()`: text nodes with at least
one ancestor selected by `//s`.  `selfM` says whether `n` was selected
(decided at its parent); `under` whether some strict ancestor was. -/
def collectT (s : XStep) (n : Node) (selfM under : Bool) : List String :=
  match n with
  | .text str => if under then [str] else []
  | .element _ _ cs => collectTList s (selectionMask s cs) cs (under || selfM)
/-- Walk a child list with its selection mask and the inherited
under-a-match flag. -/
def collectTList (s : XStep) : List Bool → List Node → Bool → List String
  | m :: ms, x :: xs, u => collectT s x m u ++ collectTList s ms xs u
  | _, _, _ => []
end

/-- `//s//text()` over the whole document. -/
def evalTextsAll (s : XStep) (root : Node) : List String :=
  collectTList s (selectionMask s [root]) [root] false

/-- A single item of an XPath result list: an element node, an attribute
value string, or a text-node string. -/
inductive XItem where
  | node (n : Node)
  | attrVal (s : String)
  | textVal (s : String)

/-- Evaluate a parsed query against the document tree. -/
def evalQuery (root : Node) : Query → List XItem
  | .elems s => (evalStepAll s root).map XItem.node
  | .elemsAttr s a => (evalStepAll s root).filterMap fun n => (getAttr n a).map XItem.attrVal
  | .elemsChild s c => (evalChildAll s c root).map XItem.node
  | .textsUnder s => (evalTextsAll s root).map XItem.textVal

/-- The external evaluator's entry point: parse the expression string and
evaluate it; a malformed expression is a `QueryError` (lxml
`XPathEvalError`), surfaced unchanged by the facade. -/
def xpathEval (root : Node) (q : String) : Except CDError (List XItem) :=
  match parseQuery q with
  | none => .error (.queryError q)
  | some ast => .ok (evalQuery root ast)

/-! ## The facade

`class Xpath` of the source: construction and every query method, each
translated statement-by-statement.  `None`/empty-string truthiness of
Python is modelled by `pyTruthyStr`. -/

/-- Python truthiness of an optional string: `None` and `""` are falsy. -/
def pyTruthyStr : Option String → Bool
  | none => false
  | some s => !(s == "")

/-- The message of the content-type `ValueError` of the source
constructor. -/
def invalidCtMsg : String :=
  "Invalid content_type. Choose either " ++ sq ++ "xml" ++ sq ++ " or " ++ sq ++ "html" ++ sq ++ "."

/-- The message of the missing-base-URL `ValueError` of
`get_internal_links_only`. -/
def noBaseMsg : String :=
  "Base URL is not provided. Cannot determine internal links."

/-- The facade state: the parsed tree and the base URL exactly as given
(`self.tree`, `self.base_url`). -/
structure Xpath where
  tree : Node
  base_url : Option String

/-- `Xpath.__init__`: dispatch on the content-type string; `xml` parses
with the XML parser, `html` with the HTML parser, anything else raises
before any parse is attempted.  The two external parsers are passed in as
functions (they are external collaborators, not reimplemented). -/
def Xpath.make (xmlParse htmlParse : String → Except CDError Node)
    (content : String) (content_type : String) (base_url : Option String) :
    Except CDError Xpath :=
  if content_type = "xml" then
    (xmlParse content).map fun t => { tree := t, base_url := base_url }
  else if content_type = "html" then
    (htmlParse content).map fun t => { tree := t, base_url := base_url }
  else
    .error (.invalidConfiguration invalidCtMsg)

/-! Query-string builders: one per f-string template of the source, each a
plain concatenation with the caller fragments inserted verbatim. -/

/-- Template of `get_nodes_by_tag`. -/
def tagQuery (tagname : String) : String := "//" ++ tagname

/-- Template of `get_nodes_by_attribute`. -/
def attrQuery (tagname attrName value : String) : String :=
  "//" ++ tagname ++ "[@" ++ attrName ++ "=" ++ sq ++ value ++ sq ++ "]"

/-- Template of `get_nodes_by_text`. -/
def textQuery (tagname text : String) : String :=
  "//" ++ tagname ++ "[text()=" ++ sq ++ text ++ sq ++ "]"

/-- Template of `get_nth_child`. -/
def nthChildQuery (parent child : String) (n : Nat) : String :=
  "//" ++ parent ++ "/" ++ child ++ "[" ++ toString n ++ "]"

/-- Template of `get_nodes_containing_text`. -/
def containsTextQuery (tagname text : String) : String :=
  "//" ++ tagname ++ "[contains(text(), " ++ sq ++ text ++ sq ++ ")]"

/-- Template of `get_nodes_by_attribute_containing_text`. -/
def containsAttrQuery (tagname attrName text : String) : String :=
  "//" ++ tagname ++ "[contains(@" ++ attrName ++ ", " ++ sq ++ text ++ sq ++ ")]"

/-- Template of `get_nodes_by_class`. -/
def classQuery (classname : String) : String :=
  "//*[@class=" ++ sq ++ classname ++ sq ++ "]"

/-- Template of `get_nodes_by_id`. -/
def idQuery (element_id : String) : String :=
  "//*[@id=" ++ sq ++ element_id ++ sq ++ "]"

/-- Template of `get_nodes_by_data_attribute`. -/
def dataAttrQuery (attrName value : String) : String :=
  "//*[@data-" ++ attrName ++ "=" ++ sq ++ value ++ sq ++ "]"

/-- Template of `get_nodes_by_name`. -/
def nameQuery (name : String) : String :=
  "//*[@name=" ++ sq ++ name ++ sq ++ "]"

/-- Fixed query of `get_article_text`. -/
def articleQuery : String := "//article//text()"

/-- Fixed query of `get_images`. -/
def imagesQuery : String := "//img/@src"

/-- Fixed query of `get_links`. -/
def linksQuery : String := "//a/@href"

/-- Fixed query of `get_links_with_text`. -/
def anchorsQuery : String := "//a"

/-- The string payload of a string-valued result item. -/
def XItem.str? : XItem → Option String
  | .attrVal s => some s
  | .textVal s => some s
  | .node _ => none

/-- The node payload of a node-valued result item. -/
def XItem.node? : XItem → Option Node
  | .node n => some n
  | _ => none

/-- The string members of a result list (a `//.../@attr` or `//...//text()`
query returns exactly these). -/
def itemStrings (l : List XItem) : List String :=
  l.filterMap XItem.str?

/-- `get_nodes_by_tag`. -/
def Xpath.get_nodes_by_tag (x : Xpath) (tagname : String) : Except CDError (List XItem) :=
  xpathEval x.tree (tagQuery tagname)

/-- `get_nodes_by_attribute`. -/
def Xpath.get_nodes_by_attribute (x : Xpath) (tagname attrName value : String) :
    Except CDError (List XItem) :=
  xpathEval x.tree (attrQuery tagname attrName value)

/-- `get_nodes_by_text`. -/
def Xpath.get_nodes_by_text (x : Xpath) (tagname text : String) : Except CDError (List XItem) :=
  xpathEval x.tree (textQuery tagname text)

/-- `get_nth_child`. -/
def Xpath.get_nth_child (x : Xpath) (parent child : String) (n : Nat) :
    Except CDError (List XItem) :=
  xpathEval x.tree (nthChildQuery parent child n)

/-- `get_nodes_containing_text`. -/
def Xpath.get_nodes_containing_text (x : Xpath) (tagname text : String) :
    Except CDError (List XItem) :=
  xpathEval x.tree (containsTextQuery tagname text)

/-- `get_nodes_by_attribute_containing_text`. -/
def Xpath.get_nodes_by_attribute_containing_text (x : Xpath) (tagname attrName text : String) :
    Except CDError (List XItem) :=
  xpathEval x.tree (containsAttrQuery tagname attrName text)

/-- `get_nodes_by_class`. -/
def Xpath.get_nodes_by_class (x : Xpath) (classname : String) : Except CDError (List XItem) :=
  xpathEval x.tree (classQuery classname)

/-- `get_nodes_by_id`. -/
def Xpath.get_nodes_by_id (x : Xpath) (element_id : String) : Except CDError (List XItem) :=
  xpathEval x.tree (idQuery element_id)

/-- `get_nodes_by_data_attribute`. -/
def Xpath.get_nodes_by_data_attribute (x : Xpath) (attrName value : String) :
    Except CDError (List XItem) :=
  xpathEval x.tree (dataAttrQuery attrName value)

/-- `get_nodes_by_name`. -/
def Xpath.get_nodes_by_name (x : Xpath) (name : String) : Except CDError (List XItem) :=
  xpathEval x.tree (nameQuery name)

/-- Python whitespace (the ASCII characters `str.strip` removes: space,
tab, newline, vertical tab, form feed, carriage return). -/
def pyIsSpace (c : Char) : Bool :=
  c = ' ' || c = Char.ofNat 9 || c = Char.ofNat 10 || c = Char.ofNat 11 ||
    c = Char.ofNat 12 || c = Char.ofNat 13

/-- `str.strip()` on the character list: drop whitespace from both ends. -/
def pyStripL (l : List Char) : List Char :=
  (((l.dropWhile pyIsSpace).reverse).dropWhile pyIsSpace).reverse

/-- Python `str.strip()`. -/
def pyStrip (s : String) : String :=
  String.mk (pyStripL s.data)

/-- `get_article_text`: evaluate `//article//text()`, strip each fragment,
keep the truthy (nonempty) ones - `[text.strip() for text in articles if
text.strip()]`. -/
def Xpath.get_article_text (x : Xpath) : Except CDError (List String) :=
  (xpathEval x.tree articleQuery).map fun items =>
    ((itemStrings items).filter fun t => !(pyStrip t == "")).map pyStrip

/-- `get_images`. -/
def Xpath.get_images (x : Xpath) : Except CDError (List String) :=
  (xpathEval x.tree imagesQuery).map itemStrings

/-- `get_links`. -/
def Xpath.get_links (x : Xpath) : Except CDError (List String) :=
  (xpathEval x.tree linksQuery).map itemStrings

/-- Python dict insertion: an existing key keeps its position but takes
the new value, a new key goes to the end. -/
def pyDictInsert (d : List (String × Option String)) (k : String) (v : Option String) :
    List (String × Option String) :=
  if d.any fun kv => kv.1 == k then
    d.map fun kv => if kv.1 == k then (k, v) else kv
  else d ++ [(k, v)]

/-- The dict comprehension of `get_links_with_text` over a given anchor
list: `{anchor.text: anchor.get("href") for anchor in anchors if
anchor.text}`. -/
def linksWithTextFold (anchors : List Node) : List (String × Option String) :=
  anchors.foldl
    (fun d a =>
      if pyTruthyStr a.textProp then pyDictInsert d (a.textProp.getD "") (getAttr a "href")
      else d)
    []

/-- `get_links_with_text`. -/
def Xpath.get_links_with_text (x : Xpath) :
    Except CDError (List (String × Option String)) :=
  (xpathEval x.tree anchorsQuery).map fun items =>
    linksWithTextFold (items.filterMap XItem.node?)

/-- Python `s.startswith(p)`. -/
def pyStartsWith (s p : String) : Bool :=
  p.data.isPrefixOf s.data

/-- `link.startswith("http://") or link.startswith("https://")`. -/
def isWebLink (link : String) : Bool :=
  pyStartsWith link "http://" || pyStartsWith link "https://"

/-- `get_outbound_links_only`: on a falsy base URL keep all web links,
otherwise also drop links starting with the base URL. -/
def Xpath.get_outbound_links_only (x : Xpath) : Except CDError (List String) :=
  (x.get_links).map fun all_links =>
    if !(pyTruthyStr x.base_url) then all_links.filter isWebLink
    else all_links.filter fun link =>
      isWebLink link && !(pyStartsWith link (x.base_url.getD ""))

/-- `get_internal_links_only`: compute the link list, then raise on a
falsy base URL, else keep links starting with the base URL. -/
def Xpath.get_internal_links_only (x : Xpath) : Except CDError (List String) :=
  match x.get_links with
  | .error e => .error e
  | .ok all_links =>
    if !(pyTruthyStr x.base_url) then .error (.configurationError noBaseMsg)
    else .ok (all_links.filter fun link => pyStartsWith link (x.base_url.getD ""))

/-! ## Calls as data

To state frame and determinism properties over arbitrary call sequences,
the public methods are reified as a `Call` type with one constructor per
method, executed by `exec`. -/

/-- The result value of one method call. -/
inductive OutVal where
  | items (l : List XItem)
  | strs (l : List String)
  | dict (d : List (String × Option String))

/-- One public query/extraction method call with its arguments. -/
inductive Call where
  | byTag (tagname : String)
  | byAttr (tagname attrName value : String)
  | byText (tagname text : String)
  | nthChild (parent child : String) (n : Nat)
  | containingText (tagname text : String)
  | attrContainingText (tagname attrName text : String)
  | byClass (classname : String)
  | byId (element_id : String)
  | byDataAttr (attrName value : String)
  | byName (name : String)
  | articleText
  | images
  | links
  | linksWithText
  | outboundLinks
  | internalLinks

/-- Execute one method call, returning its result together with the
facade state after the call.  Every method body in the source only reads
`self.tree` and `self.base_url`; no statement assigns to any attribute of
`self`, so the post-call state is the pre-call state read back out. -/
def exec (x : Xpath) : Call → Except CDError OutVal × Xpath
  | .byTag t => ((x.get_nodes_by_tag t).map .items, x)
  | .byAttr t a v => ((x.get_nodes_by_attribute t a v).map .items, x)
  | .byText t s => ((x.get_nodes_by_text t s).map .items, x)
  | .nthChild p c n => ((x.get_nth_child p c n).map .items, x)
  | .containingText t s => ((x.get_nodes_containing_text t s).map .items, x)
  | .attrContainingText t a s => ((x.get_nodes_by_attribute_containing_text t a s).map .items, x)
  | .byClass c => ((x.get_nodes_by_class c).map .items, x)
  | .byId i => ((x.get_nodes_by_id i).map .items, x)
  | .byDataAttr a v => ((x.get_nodes_by_data_attribute a v).map .items, x)
  | .byName nm => ((x.get_nodes_by_name nm).map .items, x)
  | .articleText => ((x.get_article_text).map .strs, x)
  | .images => ((x.get_images).map .strs, x)
  | .links => ((x.get_links).map .strs, x)
  | .linksWithText => ((x.get_links_with_text).map .dict, x)
  | .outboundLinks => ((x.get_outbound_links_only).map .strs, x)
  | .internalLinks => ((x.get_internal_links_only).map .strs, x)

/-- The facade state after a sequence of calls. -/
def execSeq (x : Xpath) (cs : List Call) : Xpath :=
  cs.foldl (fun st c => (exec st c).2) x

/-! ## Helper views used in theorem statements -/

/-- The step `a` with no predicate (from `//a` and `//a/@href`). -/
def aStep : XStep := ⟨NameTest.name "a", []⟩

/-- The step `article` with no predicate (from `//article//text()`). -/
def articleStep : XStep := ⟨NameTest.name "article", []⟩

/-- The document's `href` list - what `//a/@href` evaluates to. -/
def hrefList (t : Node) : List String :=
  itemStrings (evalQuery t (Query.elemsAttr aStep "href"))

/-- The document's raw article text fragments - what `//article//text()`
evaluates to: the text nodes with an `article` ancestor, in document
order. -/
def articleRaw (t : Node) : List String :=
  evalTextsAll articleStep t

/-- The document's anchor elements - what `//a` evaluates to. -/
def anchorsOf (t : Node) : List Node :=
  evalStepAll aStep t

mutual
/-- All element nodes strictly below `n`, in document order. -/
def allElemsUnder : Node → List Node
  | .text _ => []
  | .element _ _ cs => allElemsList cs
/-- All element nodes of a forest, in document order, each element before
its own descendants. -/
def allElemsList : List Node → List Node
  | [] => []
  | c :: cs => (if c.isElem then [c] else []) ++ allElemsUnder c ++ allElemsList cs
end

/-- All element nodes of the document (root included), document order. -/
def allElems (root : Node) : List Node :=
  allElemsList [root]

/-- Is the string empty or whitespace-only? -/
def isWsOnly (s : String) : Bool :=
  s.data.all pyIsSpace

/-! ## Concrete documents used by the claims -/

/-- A document whose anchor hrefs are exactly
`["https://example.com/a", "https://other.com/b", "/relative"]`. -/
def linksDoc : Node :=
  .element "html" [] [.element "body" [] [
    .element "a" [("href", "https://example.com/a")] [],
    .element "a" [("href", "https://other.com/b")] [],
    .element "a" [("href", "/relative")] []]]

/-- The base URL of the worked examples. -/
def exBase : String := "https://example.com"

/-- A tag argument containing single quotes that still yields a
syntactically valid XPath expression: `*['x']`. -/
def injTag : String := "*[" ++ sq ++ "x" ++ sq ++ "]"

/-- A tag or attribute argument with a single quote that corrupts the
expression: `a'b`. -/
def qFrag : String := "a" ++ sq ++ "b"

/-- A document with an element carrying attribute `a="b"`. -/
def injDoc : Node := .element "root" [] [.element "item" [("a", "b")] []]

/-- A document with one anchor whose visible text is a single space. -/
def wsDoc : Node :=
  .element "html" [] [.element "body" [] [.element "a" [("href", "x")] [.text " "]]]

/-- A document with two anchors sharing the same visible text but
different hrefs. -/
def dupDoc : Node :=
  .element "html" [] [.element "body" [] [
    .element "a" [("href", "u1")] [.text "same"],
    .element "a" [("href", "u2")] [.text "same"]]]

/-- A document with one anchor whose visible text sits entirely inside a
descendant element (no direct text) and one anchor with direct text but
no `href`. -/
def c10Doc : Node :=
  .element "html" [] [.element "body" [] [
    .element "a" [("href", "u1")] [.element "span" [] [.text "inner"]],
    .element "a" [] [.text "plain"]]]

/-- A document with an `article` holding one strippable text fragment and
one whitespace-only fragment. -/
def articleDoc : Node :=
  .element "html" [] [.element "body" [] [
    .element "article" [] [.text "  hi  ", .element "p" [] [.text "   "]]]]

/-- An element whose `class` attribute is the two-token list `"a b"`. -/
def multiDiv : Node := .element "div" [("class", "a b")] []

/-- An element whose `class` attribute is exactly `"a"`. -/
def pElem : Node := .element "p" [("class", "a")] []

/-- A document holding `multiDiv` and `pElem`. -/
def multiDoc : Node := .element "html" [] [.element "body" [] [multiDiv, pElem]]

/-! ## Helper lemmas -/

theorem exceptMap_ok {ε α β : Type} (f : α → β) (a : α) :
    (Except.ok a : Except ε α).map f = .ok (f a) := rfl

theorem strData_append (s t : String) : (s ++ t).data = s.data ++ t.data := by
  cases s; cases t; rfl

theorem get_links_eq (t : Node) (b : Option String) :
    Xpath.get_links ⟨t, b⟩ = .ok (hrefList t) := rfl

theorem internal_links_falsy_base (t : Node) (b : Option String)
    (hb : pyTruthyStr b = false) :
    Xpath.get_internal_links_only ⟨t, b⟩ = .error (.configurationError noBaseMsg) := by
  simp [Xpath.get_internal_links_only, get_links_eq, hb]

theorem internal_links_truthy_base (t : Node) (b : String) (hb : b ≠ "") :
    Xpath.get_internal_links_only ⟨t, some b⟩ =
      .ok ((hrefList t).filter fun link => pyStartsWith link b) := by
  have hb' : pyTruthyStr (some b) = true := by simp [pyTruthyStr, hb]
  simp [Xpath.get_internal_links_only, get_links_eq, hb']

theorem outbound_links_falsy_base (t : Node) (b : Option String)
    (hb : pyTruthyStr b = false) :
    Xpath.get_outbound_links_only ⟨t, b⟩ = .ok ((hrefList t).filter isWebLink) := by
  simp [Xpath.get_outbound_links_only, get_links_eq, exceptMap_ok, hb]

theorem outbound_links_truthy_base (t : Node) (b : String) (hb : b ≠ "") :
    Xpath.get_outbound_links_only ⟨t, some b⟩ =
      .ok ((hrefList t).filter fun link => isWebLink link && !(pyStartsWith link b)) := by
  have hb' : pyTruthyStr (some b) = true := by simp [pyTruthyStr, hb]
  simp [Xpath.get_outbound_links_only, get_links_eq, exceptMap_ok, hb']

/-! ## Claims -/

/-- C1: `getInternalLinksOnly` raises `ConfigurationError` when the facade
was constructed with no base URL; with a (nonempty) base URL it keeps
precisely the links whose value starts with the exact base URL string, in
document order; with base URL `https://example.com` over a document whose
anchor hrefs are `["https://example.com/a", "https://other.com/b",
"/relative"]` it returns exactly `["https://example.com/a"]`. -/
theorem C1_internal_links :
    (∀ t : Node,
      Xpath.get_internal_links_only ⟨t, none⟩ = .error (.configurationError noBaseMsg)) ∧
    (∀ (t : Node) (b : String), b ≠ "" →
      Xpath.get_internal_links_only ⟨t, some b⟩ =
        .ok ((hrefList t).filter fun link => pyStartsWith link b)) ∧
    Xpath.get_internal_links_only ⟨linksDoc, some exBase⟩ = .ok ["https://example.com/a"] := by
  refine ⟨fun t => internal_links_falsy_base t none rfl,
          fun t b hb => internal_links_truthy_base t b hb, by rfl⟩

/-- Witness for C1 at the worked example. -/
theorem C1_internal_links_witness :
    Xpath.get_internal_links_only ⟨linksDoc, some exBase⟩ =
      .ok ((hrefList linksDoc).filter fun link => pyStartsWith link exBase) :=
  C1_internal_links.2.1 linksDoc exBase (by decide)

/-- Counterexample to C2: with `baseUrl = ""` (an empty string, which the
claim counts as provided), `getInternalLinksOnly` DOES fail with
`ConfigurationError` - the source checks `if not self.base_url`, and
Python's truthiness makes the empty string behave exactly like `None`. -/
theorem C2_counterexample :
    Xpath.get_internal_links_only ⟨linksDoc, some ""⟩ =
      .error (.configurationError noBaseMsg) := rfl

/-- C2 (amended): the base URL is stored verbatim at construction, but an
empty-string base URL is NOT distinct from an absent one for
`getInternalLinksOnly`: the missing-base-URL check is string truthiness,
so both `None` and `""` raise `ConfigurationError`. -/
theorem C2_base_url_truthiness :
    (∀ (xp hp : String → Except CDError Node) (content : String) (b : Option String) (x : Xpath),
      Xpath.make xp hp content "html" b = .ok x → x.base_url = b) ∧
    (∀ (xp hp : String → Except CDError Node) (content : String) (b : Option String) (x : Xpath),
      Xpath.make xp hp content "xml" b = .ok x → x.base_url = b) ∧
    (∀ t : Node,
      Xpath.get_internal_links_only ⟨t, some ""⟩ = .error (.configurationError noBaseMsg)) := by
  refine ⟨?_, ?_, fun t => internal_links_falsy_base t (some "") rfl⟩
  · intro xp hp content b x h
    simp only [Xpath.make, reduceIte, Except.map] at h
    cases hc : hp content <;> rw [hc] at h
    · exact absurd h (by simp)
    · rw [← (Except.ok.injEq _ _).mp h]
  · intro xp hp content b x h
    simp only [Xpath.make, reduceIte, Except.map] at h
    cases hc : xp content <;> rw [hc] at h
    · exact absurd h (by simp)
    · rw [← (Except.ok.injEq _ _).mp h]

/-- Witness for C2 (amended): a concrete successful construction stores
the base URL it was given. -/
theorem C2_base_url_truthiness_witness :
    (Xpath.mk linksDoc (some "u")).base_url = some "u" :=
  C2_base_url_truthiness.1 (fun _ => .ok linksDoc) (fun _ => .ok linksDoc) "content"
    (some "u") ⟨linksDoc, some "u"⟩ rfl

/-- Counterexample to C4: with `baseUrl = ""` (provided, in the claim's
terms) the exclusion of links starting with the base URL does not happen:
every string starts with `""`, so the claim demands `[]`, but the source
treats a falsy base URL as absent and returns both web links. -/
theorem C4_counterexample :
    Xpath.get_outbound_links_only ⟨linksDoc, some ""⟩ =
        .ok ["https://example.com/a", "https://other.com/b"] ∧
      pyStartsWith "https://example.com/a" "" = true := ⟨rfl, rfl⟩

/-- C4 (amended): `getOutboundLinksOnly` keeps, from the document-order
link list, only values starting with `http://` or `https://`; when a
NONEMPTY base URL was provided it additionally excludes links starting
with that exact string (an empty base URL is treated as absent); the
worked example returns exactly `["https://other.com/b"]`. -/
theorem C4_outbound_links :
    (∀ (t : Node) (b : Option String), pyTruthyStr b = false →
      Xpath.get_outbound_links_only ⟨t, b⟩ = .ok ((hrefList t).filter isWebLink)) ∧
    (∀ (t : Node) (b : String), b ≠ "" →
      Xpath.get_outbound_links_only ⟨t, some b⟩ =
        .ok ((hrefList t).filter fun link => isWebLink link && !(pyStartsWith link b))) ∧
    Xpath.get_outbound_links_only ⟨linksDoc, some exBase⟩ = .ok ["https://other.com/b"] :=
  ⟨outbound_links_falsy_base, outbound_links_truthy_base, by rfl⟩

/-- Witness for C4 (amended) at the worked example. -/
theorem C4_outbound_links_witness :
    Xpath.get_outbound_links_only ⟨linksDoc, some exBase⟩ =
      .ok ((hrefList linksDoc).filter fun link => isWebLink link && !(pyStartsWith link exBase)) :=
  C4_outbound_links.2.1 linksDoc exBase (by decide)

/-- C5: construction with any content-type other than exactly `xml` or
`html` fails with `InvalidConfiguration` before any parsing is attempted
(the result does not depend on the parser functions at all); `xml`
dispatches to the XML parser and `html` to the HTML parser. -/
theorem C5_content_type :
    (∀ (xp hp : String → Except CDError Node) (content ct : String) (b : Option String),
      ct ≠ "xml" → ct ≠ "html" →
      Xpath.make xp hp content ct b = .error (.invalidConfiguration invalidCtMsg)) ∧
    (∀ (xp hp : String → Except CDError Node) (content : String) (b : Option String),
      Xpath.make xp hp content "xml" b = (xp content).map fun t => ⟨t, b⟩) ∧
    (∀ (xp hp : String → Except CDError Node) (content : String) (b : Option String),
      Xpath.make xp hp content "html" b = (hp content).map fun t => ⟨t, b⟩) := by
  refine ⟨?_, fun _ _ _ _ => rfl, fun _ _ _ _ => rfl⟩
  intro xp hp content ct b h1 h2
  simp [Xpath.make, h1, h2]

/-- Witness for C5: `contentType = "pdf"` raises `InvalidConfiguration`
even when both parsers would fail. -/
theorem C5_content_type_witness :
    Xpath.make (fun _ => .error (.parseError "bad")) (fun _ => .error (.parseError "bad"))
        "content" "pdf" none = .error (.invalidConfiguration invalidCtMsg) :=
  C5_content_type.1 _ _ "content" "pdf" none (by decide) (by decide)

/-- C10: `getLinksWithText` considers only the anchor's direct text (the
text before any child element): an anchor whose visible text lies entirely
inside a descendant element has no direct text and is skipped, while an
anchor with direct text but no `href` is included, mapped to an absent
href value. -/
theorem C10_links_with_text_direct_text :
    Node.textProp (.element "a" [("href", "u1")] [.element "span" [] [.text "inner"]]) = none ∧
    Node.textProp (.element "a" [] [.text "plain"]) = some "plain" ∧
    getAttr (.element "a" [] [.text "plain"]) "href" = none ∧
    Xpath.get_links_with_text ⟨c10Doc, none⟩ = .ok [("plain", none)] :=
  ⟨rfl, rfl, rfl, rfl⟩

theorem exec_state (x : Xpath) (c : Call) : (exec x c).2 = x := by
  cases c <;> rfl

/-- C9: no query or extraction operation mutates the facade state, over
any single call and any sequence of calls, and a repeated identical call
returns the identical result. -/
theorem C9_no_mutation :
    (∀ (x : Xpath) (c : Call),
      (exec x c).2 = x ∧ exec ((exec x c).2) c = exec x c) ∧
    (∀ (x : Xpath) (cs : List Call), execSeq x cs = x) := by
  constructor
  · intro x c
    refine ⟨exec_state x c, ?_⟩
    rw [exec_state x c]
  · intro x cs
    induction cs generalizing x with
    | nil => rfl
    | cons c cs ih =>
      show execSeq (exec x c).2 cs = x
      rw [exec_state x c, ih x]

theorem pyDictInsert_mem (d : List (String × Option String)) (k : String) (v : Option String)
    (kv : String × Option String) (h : kv ∈ pyDictInsert d k v) : kv ∈ d ∨ kv.1 = k := by
  unfold pyDictInsert at h
  split at h
  · obtain ⟨kv', hkv', he⟩ := List.mem_map.mp h
    by_cases hk : kv'.1 = k
    · right
      rw [if_pos (by simp [hk])] at he
      rw [← he]
    · left
      rw [if_neg (by simp [hk])] at he
      rw [← he]; exact hkv'
  · rcases List.mem_append.mp h with h' | h'
    · exact Or.inl h'
    · right
      rw [List.mem_singleton.mp h']

theorem linksWithTextFold_keys_aux (anchors : List Node) :
    ∀ d : List (String × Option String), (∀ kv ∈ d, kv.1 ≠ "") →
      ∀ kv ∈ anchors.foldl
        (fun d a =>
          if pyTruthyStr a.textProp then pyDictInsert d (a.textProp.getD "") (getAttr a "href")
          else d)
        d, kv.1 ≠ "" := by
  induction anchors with
  | nil => exact fun d hd kv hkv => hd kv hkv
  | cons a as ih =>
    intro d hd kv hkv
    rw [List.foldl_cons] at hkv
    refine ih _ ?_ kv hkv
    intro kv' hkv'
    by_cases hT : pyTruthyStr a.textProp = true
    · rw [if_pos hT] at hkv'
      rcases pyDictInsert_mem _ _ _ _ hkv' with h' | h'
      · exact hd kv' h'
      · rw [h']
        cases ht : a.textProp with
        | none => rw [ht] at hT; exact absurd hT (by simp [pyTruthyStr])
        | some s =>
          rw [ht] at hT
          simp only [pyTruthyStr, Bool.not_eq_true', beq_iff_eq] at hT
          simpa [ht] using hT
    · rw [if_neg hT] at hkv'
      exact hd kv' hkv'

theorem linksWithTextFold_keys (anchors : List Node) :
    ∀ kv ∈ linksWithTextFold anchors, kv.1 ≠ "" :=
  linksWithTextFold_keys_aux anchors [] (fun kv h => absurd h (List.not_mem_nil kv))

theorem filterMap_nodeQ (l : List Node) : (l.map XItem.node).filterMap XItem.node? = l := by
  induction l with
  | nil => rfl
  | cons c cs ih => simp [List.filterMap_cons, XItem.node?, ih]

theorem get_links_with_text_eq (t : Node) (b : Option String) :
    Xpath.get_links_with_text ⟨t, b⟩ = .ok (linksWithTextFold (anchorsOf t)) := by
  have hp : parseQuery anchorsQuery = some (Query.elems aStep) := by decide
  have hcomp : (XItem.node? ∘ XItem.node) = some := funext fun _ => rfl
  simp [Xpath.get_links_with_text, xpathEval, hp, evalQuery, exceptMap_ok, filterMap_nodeQ,
    anchorsOf, hcomp, List.filterMap_some]

/-- Counterexample to C3: a document with one anchor whose visible text is
`" "` (one space, truthy in Python) produces a mapping whose only key is
`" "` - a whitespace-derived-empty key, which the claim says can never
occur.  The source filters on the raw text's truthiness, not on its
stripped value. -/
theorem C3_counterexample :
    Xpath.get_links_with_text ⟨wsDoc, none⟩ = .ok [(" ", some "x")] ∧
      pyStrip " " = "" := ⟨rfl, rfl⟩

/-- C3 (amended): `getLinksWithText` never contains an entry whose key is
the EMPTY string (anchors lacking direct text are skipped entirely), but
whitespace-only keys are possible since the filter checks the raw text's
truthiness without stripping; for two anchors sharing identical visible
text but different hrefs, the mapping holds exactly one entry for that
text, with the later (document-order) anchor's href. -/
theorem C3_links_with_text :
    (∀ (t : Node) (b : Option String) (d : List (String × Option String)),
      Xpath.get_links_with_text ⟨t, b⟩ = .ok d → ∀ kv ∈ d, kv.1 ≠ "") ∧
    Xpath.get_links_with_text ⟨dupDoc, none⟩ = .ok [("same", some "u2")] := by
  constructor
  · intro t b d h kv hkv
    rw [get_links_with_text_eq] at h
    injection h with h
    rw [← h] at hkv
    exact linksWithTextFold_keys (anchorsOf t) kv hkv
  · rfl

/-- Witness for C3 (amended) at the duplicate-text document. -/
theorem C3_links_with_text_witness : ("same", (some "u2" : Option String)).1 ≠ "" :=
  C3_links_with_text.1 dupDoc none [("same", some "u2")] rfl ("same", some "u2")
    (List.mem_singleton.mpr rfl)

theorem xpathEval_none (t : Node) (q : String) (h : parseQuery q = none) :
    xpathEval t q = .error (.queryError q) := by
  simp [xpathEval, h]

/-- Counterexample to C8: the tag argument `*['x']` contains single
quotes, yet the generated expression `//*['x'][@a='b']` is syntactically
VALID XPath (a truthy literal predicate followed by an attribute
predicate), so no `QueryError` is raised; instead the query silently
matches unintended nodes - here an element whose tag is `item`, not the
requested tag string. -/
theorem C8_counterexample :
    quoteCh ∈ injTag.data ∧
    Xpath.get_nodes_by_attribute ⟨injDoc, none⟩ injTag "a" "b" =
      .ok [XItem.node (.element "item" [("a", "b")] [])] := ⟨by decide, rfl⟩

/-- C8 (amended): every tag/attribute/text query interpolates the
caller-supplied fragments verbatim into the expression template with no
escaping; a single-quote character in a tag or attribute argument
typically corrupts the expression and raises `QueryError` (shown for tag
`a'b` in tag position, attribute position, and for the text query), but
crafted quote-containing arguments can instead form a valid expression
and silently match unintended nodes (see the counterexample). -/
theorem C8_injection :
    (∀ tagname attrName value : String,
      (attrQuery tagname attrName value).data =
        '/' :: '/' :: (tagname.data ++ '[' :: '@' ::
          (attrName.data ++ '=' :: quoteCh :: (value.data ++ [quoteCh, ']'])))) ∧
    (∀ tagname text : String,
      (textQuery tagname text).data =
        '/' :: '/' :: (tagname.data ++ '[' :: 't' :: 'e' :: 'x' :: 't' :: '(' :: ')' :: '=' ::
          quoteCh :: (text.data ++ [quoteCh, ']']))) ∧
    (∀ (t : Node) (b : Option String),
      Xpath.get_nodes_by_attribute ⟨t, b⟩ qFrag "a" "b" =
        .error (.queryError (attrQuery qFrag "a" "b"))) ∧
    (∀ (t : Node) (b : Option String),
      Xpath.get_nodes_by_attribute ⟨t, b⟩ "d" qFrag "b" =
        .error (.queryError (attrQuery "d" qFrag "b"))) ∧
    (∀ (t : Node) (b : Option String),
      Xpath.get_nodes_by_text ⟨t, b⟩ qFrag "b" =
        .error (.queryError (textQuery qFrag "b"))) := by
  refine ⟨?_, ?_, ?_, ?_, ?_⟩
  · intro tagname attrName value
    have h1 : ("//" : String).data = ['/', '/'] := rfl
    have h2 : ("[@" : String).data = ['[', '@'] := rfl
    have h3 : ("=" : String).data = ['='] := rfl
    have h4 : ("]" : String).data = [']'] := rfl
    have h5 : sq.data = [quoteCh] := rfl
    simp [attrQuery, strData_append, h1, h2, h3, h4, h5]
  · intro tagname text
    have h1 : ("//" : String).data = ['/', '/'] := rfl
    have h2 : ("[text()=" : String).data = ['[', 't', 'e', 'x', 't', '(', ')', '='] := rfl
    have h4 : ("]" : String).data = [']'] := rfl
    have h5 : sq.data = [quoteCh] := rfl
    simp [textQuery, strData_append, h1, h2, h4, h5]
  · exact fun t b => xpathEval_none t _ (by decide)
  · exact fun t b => xpathEval_none t _ (by decide)
  · exact fun t b => xpathEval_none t _ (by decide)

theorem dropWhile_dropWhile (p : Char → Bool) (l : List Char) :
    (l.dropWhile p).dropWhile p = l.dropWhile p := by
  induction l with
  | nil => rfl
  | cons a l ih =>
    by_cases h : p a
    · simp [List.dropWhile_cons, h, ih]
    · simp [List.dropWhile_cons, h]

theorem dropWhile_suffix_of (p : Char → Bool) (l : List Char) : l.dropWhile p <:+ l := by
  induction l with
  | nil => exact List.nil_suffix
  | cons a l ih =>
    rw [List.dropWhile_cons]
    split
    · exact ih.trans (List.suffix_cons a l)
    · exact List.suffix_refl _

theorem dropWhile_length_le (p : Char → Bool) (l : List Char) :
    (l.dropWhile p).length ≤ l.length := by
  induction l with
  | nil => exact Nat.le_refl 0
  | cons a t ih =>
    rw [List.dropWhile_cons]
    split
    · exact Nat.le_trans ih (by simp)
    · exact Nat.le_refl _

theorem dropWhile_fixed_of_prefix (p : Char → Bool) (m r : List Char)
    (hm : m.dropWhile p = m) (hr : r <+: m) : r.dropWhile p = r := by
  cases r with
  | nil => rfl
  | cons a t =>
    obtain ⟨u, hu⟩ := hr
    have hpa : ¬ p a = true := by
      rw [← hu, List.cons_append] at hm
      by_cases h : p a
      · rw [List.dropWhile_cons_of_pos h] at hm
        have hle := dropWhile_length_le p (t ++ u)
        rw [hm] at hle
        simp only [List.length_cons] at hle
        omega
      · exact h
    exact List.dropWhile_cons_of_neg hpa

theorem dropWhile_eq_nil_of_all (p : Char → Bool) (l : List Char)
    (h : ∀ c ∈ l, p c = true) : l.dropWhile p = [] := by
  induction l with
  | nil => rfl
  | cons a t ih =>
    rw [List.dropWhile_cons_of_pos (h a (List.mem_cons_self a t))]
    exact ih fun c hc => h c (List.mem_cons_of_mem a hc)

theorem pyStripL_idem (l : List Char) : pyStripL (pyStripL l) = pyStripL l := by
  unfold pyStripL
  set p := pyIsSpace with hp
  set m := l.dropWhile p with hm
  set s := m.reverse.dropWhile p with hs
  have hmfix : m.dropWhile p = m := by rw [hm]; exact dropWhile_dropWhile p l
  have hsfix : s.dropWhile p = s := by rw [hs]; exact dropWhile_dropWhile p m.reverse
  have hpref : s.reverse <+: m := by
    have h1 : s <:+ m.reverse := by rw [hs]; exact dropWhile_suffix_of p m.reverse
    have h2 := h1.reverse
    rwa [List.reverse_reverse] at h2
  have h2 : s.reverse.dropWhile p = s.reverse := dropWhile_fixed_of_prefix p m s.reverse hmfix hpref
  rw [h2, List.reverse_reverse, hsfix]

theorem pyStrip_idem (s : String) : pyStrip (pyStrip s) = pyStrip s := by
  unfold pyStrip
  rw [show (String.mk (pyStripL s.data)).data = pyStripL s.data from rfl, pyStripL_idem]

theorem isWsOnly_false (s : String) (h1 : pyStrip s = s) (h2 : s ≠ "") :
    isWsOnly s = false := by
  by_contra hws
  have hall : ∀ c ∈ s.data, pyIsSpace c = true := by
    have htrue : isWsOnly s = true := by revert hws; cases isWsOnly s <;> simp
    intro c hc
    exact List.all_eq_true.mp htrue c hc
  have hnil : s.data.dropWhile pyIsSpace = [] := dropWhile_eq_nil_of_all _ _ hall
  have hstrip : pyStrip s = "" := by
    unfold pyStrip pyStripL
    rw [hnil]
    rfl
  rw [h1] at hstrip
  exact h2 hstrip

theorem itemStrings_textVal (l : List String) : itemStrings (l.map XItem.textVal) = l := by
  have hcomp : (XItem.str? ∘ XItem.textVal) = some := funext fun _ => rfl
  simp [itemStrings, List.filterMap_map, hcomp, List.filterMap_some]

theorem get_article_text_eq (t : Node) (b : Option String) :
    Xpath.get_article_text ⟨t, b⟩ =
      .ok (((articleRaw t).filter fun u => !(pyStrip u == "")).map pyStrip) := by
  have hp : parseQuery articleQuery = some (Query.textsUnder articleStep) := by decide
  simp [Xpath.get_article_text, xpathEval, hp, evalQuery, exceptMap_ok, itemStrings_textVal,
    articleRaw]

/-- C6: for every document, `getArticleText` returns exactly the stripped
versions of the truthy-after-strip text fragments under `article`
elements, in document order (`articleRaw` is the document-order list of
text nodes with an `article` ancestor); consequently the result contains
no entry that is empty or whitespace-only, and every entry is already
stripped. -/
theorem C6_article_text :
    ∀ (t : Node) (b : Option String) (out : List String),
      Xpath.get_article_text ⟨t, b⟩ = .ok out →
      (out = ((articleRaw t).filter fun u => !(pyStrip u == "")).map pyStrip ∧
        ∀ s ∈ out, s ≠ "" ∧ pyStrip s = s ∧ isWsOnly s = false) := by
  intro t b out h
  rw [get_article_text_eq] at h
  injection h with h
  subst h
  refine ⟨rfl, ?_⟩
  intro s hs
  obtain ⟨r, hr, hsr⟩ := List.mem_map.mp hs
  have hrf := List.mem_filter.mp hr
  have hne : pyStrip r ≠ "" := by simpa using hrf.2
  subst hsr
  exact ⟨hne, pyStrip_idem r, isWsOnly_false _ (pyStrip_idem r) hne⟩

/-- Witness for C6 at a concrete article document with one strippable
fragment and one whitespace-only fragment. -/
theorem C6_article_text_witness :
    ["hi"] = ((articleRaw articleDoc).filter fun u => !(pyStrip u == "")).map pyStrip ∧
      "hi" ≠ "" ∧ pyStrip "hi" = "hi" ∧ isWsOnly "hi" = false := by
  have h := C6_article_text articleDoc none ["hi"] rfl
  exact ⟨h.1, h.2 "hi" (List.mem_singleton.mpr rfl)⟩

theorem matchesTest_star (n : Node) : matchesTest NameTest.star n = n.isElem := by
  cases n <;> rfl

theorem stepMask_attrEq (a v : String) (pos : Nat) (l : List (Node × Bool)) :
    stepMask (Pred.attrEq a v) pos l =
      l.map fun nb => (nb.1, nb.2 && (getAttr nb.1 a == some v)) := by
  induction l generalizing pos with
  | nil => rfl
  | cons nb l ih =>
    obtain ⟨n, b⟩ := nb
    cases b
    · simp [stepMask, ih]
    · simp [stepMask, predHolds, ih]

theorem selectionMask_attrStar (a v : String) (cs : List Node) :
    selectionMask ⟨NameTest.star, [Pred.attrEq a v]⟩ cs =
      cs.map fun n => n.isElem && (getAttr n a == some v) := by
  simp [selectionMask, stepMask_attrEq, matchesTest_star, List.map_map, Function.comp_def]

mutual
theorem collectE_filter (a v : String) (n : Node) :
    collectE ⟨NameTest.star, [Pred.attrEq a v]⟩ n =
      (allElemsUnder n).filter fun m => getAttr m a == some v :=
  match n with
  | .text _ => rfl
  | .element tg ats cs => by
    rw [show collectE ⟨NameTest.star, [Pred.attrEq a v]⟩ (.element tg ats cs) =
          collectEList ⟨NameTest.star, [Pred.attrEq a v]⟩
            (selectionMask ⟨NameTest.star, [Pred.attrEq a v]⟩ cs) cs from rfl,
      collectEList_filter a v cs]
    rfl
theorem collectEList_filter (a v : String) (cs : List Node) :
    collectEList ⟨NameTest.star, [Pred.attrEq a v]⟩
        (selectionMask ⟨NameTest.star, [Pred.attrEq a v]⟩ cs) cs =
      (allElemsList cs).filter fun m => getAttr m a == some v :=
  match cs with
  | [] => rfl
  | c :: cs' => by
    rw [selectionMask_attrStar a v (c :: cs'), List.map_cons]
    rw [show collectEList ⟨NameTest.star, [Pred.attrEq a v]⟩
          ((c.isElem && (getAttr c a == some v)) ::
            cs'.map fun n => n.isElem && (getAttr n a == some v)) (c :: cs') =
        (if c.isElem && (getAttr c a == some v) then [c] else []) ++
          collectE ⟨NameTest.star, [Pred.attrEq a v]⟩ c ++
          collectEList ⟨NameTest.star, [Pred.attrEq a v]⟩
            (cs'.map fun n => n.isElem && (getAttr n a == some v)) cs' from rfl]
    rw [← selectionMask_attrStar a v cs', collectE_filter a v c, collectEList_filter a v cs']
    rw [show allElemsList (c :: cs') =
        (if c.isElem then [c] else []) ++ allElemsUnder c ++ allElemsList cs' from rfl]
    rw [List.filter_append, List.filter_append]
    congr 1
    congr 1
    cases hel : c.isElem with
    | false => simp
    | true =>
      cases hat : (getAttr c a == some v) with
      | false => simp [hat]
      | true => simp [hat]
end

theorem takeWhile_append_not (p : Char → Bool) (l t : List Char) (a : Char)
    (hl : ∀ x ∈ l, p x = true) (ha : p a = false) :
    (l ++ a :: t).takeWhile p = l := by
  induction l with
  | nil => simp [List.takeWhile_cons, ha]
  | cons b l ih =>
    rw [List.cons_append, List.takeWhile_cons_of_pos (hl b (List.mem_cons_self b l))]
    rw [ih fun x hx => hl x (List.mem_cons_of_mem b hx)]

theorem dropWhile_append_not (p : Char → Bool) (l t : List Char) (a : Char)
    (hl : ∀ x ∈ l, p x = true) (ha : p a = false) :
    (l ++ a :: t).dropWhile p = a :: t := by
  induction l with
  | nil => simp [List.dropWhile_cons, ha]
  | cons b l ih =>
    rw [List.cons_append, List.dropWhile_cons_of_pos (hl b (List.mem_cons_self b l))]
    exact ih fun x hx => hl x (List.mem_cons_of_mem b hx)

theorem optBind_some {α β : Type} (a : α) (f : α → Option β) :
    (some a).bind f = f a := rfl

theorem parseLiteral_clean (v : String) (hv : quoteCh ∉ v.data) (rest : List Char) :
    parseLiteral (quoteCh :: (v.data ++ quoteCh :: rest)) = some (v, rest) := by
  have hl : ∀ x ∈ v.data, (x != quoteCh) = true := by
    intro x hx
    have hne : x ≠ quoteCh := fun h => hv (h ▸ hx)
    simpa using hne
  have ha : (quoteCh != quoteCh) = false := by simp
  rw [show parseLiteral (quoteCh :: (v.data ++ quoteCh :: rest)) =
      (match (v.data ++ quoteCh :: rest).dropWhile (fun x => x != quoteCh) with
       | q :: rest2 =>
         if q = quoteCh then
           some (String.mk ((v.data ++ quoteCh :: rest).takeWhile fun x => x != quoteCh), rest2)
         else none
       | [] => none) from rfl]
  rw [dropWhile_append_not _ _ _ _ hl ha, takeWhile_append_not _ _ _ _ hl ha]
  rfl

theorem parseName_class (X : List Char) :
    parseName ('c' :: 'l' :: 'a' :: 's' :: 's' :: '=' :: X) = some ("class", '=' :: X) := by
  unfold parseName
  rw [List.takeWhile_cons_of_pos (by decide), List.takeWhile_cons_of_pos (by decide),
    List.takeWhile_cons_of_pos (by decide), List.takeWhile_cons_of_pos (by decide),
    List.takeWhile_cons_of_pos (by decide), List.takeWhile_cons_of_neg (by decide),
    List.dropWhile_cons_of_pos (by decide), List.dropWhile_cons_of_pos (by decide),
    List.dropWhile_cons_of_pos (by decide), List.dropWhile_cons_of_pos (by decide),
    List.dropWhile_cons_of_pos (by decide), List.dropWhile_cons_of_neg (by decide)]
  rfl

theorem parsePreds_succ_cons (f : Nat) (c : Char) (rest : List Char) :
    parsePreds (f + 1) (c :: rest) =
      if c = '[' then
        match parsePredBody rest with
        | some (p, r1) =>
          match expectChar ']' r1 with
          | some r2 =>
            match parsePreds f r2 with
            | some (ps, r3) => some (p :: ps, r3)
            | none => none
          | none => none
        | none => none
      else some ([], c :: rest) := rfl

theorem parsePreds_succ_nil (f : Nat) : parsePreds (f + 1) [] = some ([], []) := rfl

theorem parsePredBody_class (c : String) (hc : quoteCh ∉ c.data) :
    parsePredBody ('@' :: 'c' :: 'l' :: 'a' :: 's' :: 's' :: '=' :: quoteCh ::
        (c.data ++ [quoteCh, ']'])) = some (Pred.attrEq "class" c, [']']) := by
  rw [show parsePredBody ('@' :: 'c' :: 'l' :: 'a' :: 's' :: 's' :: '=' :: quoteCh ::
        (c.data ++ [quoteCh, ']'])) =
      (parseName ('c' :: 'l' :: 'a' :: 's' :: 's' :: '=' :: quoteCh ::
          (c.data ++ [quoteCh, ']']))).bind (fun ar =>
        match ar.2 with
        | e :: r2 =>
          if e = '=' then
            (parseLiteral r2).bind fun vr => pure (Pred.attrEq ar.1 vr.1, vr.2)
          else none
        | [] => none) from rfl]
  rw [parseName_class (quoteCh :: (c.data ++ [quoteCh, ']'])), optBind_some]
  show (parseLiteral (quoteCh :: (c.data ++ [quoteCh, ']']))).bind
      (fun vr => pure (Pred.attrEq "class" vr.1, vr.2)) = some (Pred.attrEq "class" c, [']'])
  rw [parseLiteral_clean c hc [']'], optBind_some]
  rfl

theorem parsePreds_class (c : String) (hc : quoteCh ∉ c.data) (g : Nat) :
    parsePreds (g + 1 + 1) ('[' :: '@' :: 'c' :: 'l' :: 'a' :: 's' :: 's' :: '=' :: quoteCh ::
        (c.data ++ [quoteCh, ']'])) = some ([Pred.attrEq "class" c], []) := by
  rw [parsePreds_succ_cons (g + 1), if_pos rfl, parsePredBody_class c hc]
  show (match parsePreds (g + 1) [] with
      | some (ps, r3) => some (Pred.attrEq "class" c :: ps, r3)
      | none => none) = some ([Pred.attrEq "class" c], [])
  rw [parsePreds_succ_nil]

theorem parseStep_class (c : String) (hc : quoteCh ∉ c.data) :
    parseStep ('*' :: '[' :: '@' :: 'c' :: 'l' :: 'a' :: 's' :: 's' :: '=' :: quoteCh ::
        (c.data ++ [quoteCh, ']'])) =
      some (⟨NameTest.star, [Pred.attrEq "class" c]⟩, []) := by
  rw [show parseStep ('*' :: '[' :: '@' :: 'c' :: 'l' :: 'a' :: 's' :: 's' :: '=' :: quoteCh ::
        (c.data ++ [quoteCh, ']'])) =
      (parsePreds
          (('[' :: '@' :: 'c' :: 'l' :: 'a' :: 's' :: 's' :: '=' :: quoteCh ::
            (c.data ++ [quoteCh, ']'])).length + 1)
          ('[' :: '@' :: 'c' :: 'l' :: 'a' :: 's' :: 's' :: '=' :: quoteCh ::
            (c.data ++ [quoteCh, ']']))).bind
        (fun pr => pure (⟨NameTest.star, pr.1⟩, pr.2)) from rfl]
  simp only [List.length_cons]
  rw [parsePreds_class c hc, optBind_some]
  rfl

theorem parse_class_query (c : String) (hc : quoteCh ∉ c.data) :
    parseQuery (classQuery c) = some (Query.elems ⟨NameTest.star, [Pred.attrEq "class" c]⟩) := by
  have hdata : (classQuery c).data =
      '/' :: '/' :: '*' :: '[' :: '@' :: 'c' :: 'l' :: 'a' :: 's' :: 's' :: '=' ::
        quoteCh :: (c.data ++ [quoteCh, ']']) := by
    have h1 : ("//*[@class=" : String).data =
        ['/', '/', '*', '[', '@', 'c', 'l', 'a', 's', 's', '='] := rfl
    have h5 : sq.data = [quoteCh] := rfl
    have h6 : ("]" : String).data = [']'] := rfl
    simp [classQuery, strData_append, h1, h5, h6]
  unfold parseQuery
  rw [hdata]
  rw [show expectChars ("//").data ('/' :: '/' :: '*' :: '[' :: '@' :: 'c' :: 'l' :: 'a' ::
      's' :: 's' :: '=' :: quoteCh :: (c.data ++ [quoteCh, ']'])) =
    some ('*' :: '[' :: '@' :: 'c' :: 'l' :: 'a' :: 's' :: 's' :: '=' :: quoteCh ::
      (c.data ++ [quoteCh, ']'])) from rfl]
  simp only [Option.bind_eq_bind, Option.some_bind]
  rw [parseStep_class c hc]
  simp only [Option.some_bind]
  rfl

/-- C7: `getNodesByClass` matches any element (regardless of tag) whose
`class` attribute exactly equals the given string - not token membership:
for every document and every quote-free class value, the result is
precisely the document-order elements whose whole `class` attribute equals
the value; concretely, a `div` with `class="a b"` does not match the
query for `"a"` (only the element with `class="a"` does), while the query
for the full string `"a b"` matches it. -/
theorem C7_class_exact_match :
    (∀ (t : Node) (b : Option String) (c : String), quoteCh ∉ c.data →
      Xpath.get_nodes_by_class ⟨t, b⟩ c =
        .ok (((allElems t).filter fun m => getAttr m "class" == some c).map XItem.node)) ∧
    Xpath.get_nodes_by_class ⟨multiDoc, none⟩ "a" = .ok [XItem.node pElem] ∧
    Xpath.get_nodes_by_class ⟨multiDoc, none⟩ "a b" = .ok [XItem.node multiDiv] := by
  refine ⟨?_, rfl, rfl⟩
  intro t b c hc
  have hp := parse_class_query c hc
  simp only [Xpath.get_nodes_by_class, xpathEval, hp, evalQuery]
  rw [show evalStepAll ⟨NameTest.star, [Pred.attrEq "class" c]⟩ t =
      collectEList ⟨NameTest.star, [Pred.attrEq "class" c]⟩
        (selectionMask ⟨NameTest.star, [Pred.attrEq "class" c]⟩ [t]) [t] from rfl]
  rw [collectEList_filter "class" c [t]]
  rfl

/-- Witness for C7 at the two-class document with the multi-token class
value. -/
theorem C7_class_exact_match_witness :
    Xpath.get_nodes_by_class ⟨multiDoc, none⟩ "a b" =
      .ok (((allElems multiDoc).filter fun m => getAttr m "class" == some "a b").map
        XItem.node) :=
  C7_class_exact_match.1 multiDoc none "a b" (by decide)

end CDParser
